import Mathlib

/-!
Shallow embedding of the Neurova repository's two source files:

* `src/services/department-agent.service.ts` — the `DepartmentAgentService`
  class: in-memory agent registry (a JS `Map` keyed by agent id, iterated in
  insertion order, here a `List DepartmentAgent` with the key always equal to
  the stored agent's `id`, as every `set` call in the source guarantees),
  task assignment (`handleCitizenNeed`, `selectBestAgent`, `assignTask`),
  event listeners (`agentsHealthUpdated`), and enrollment (`registerAgent`).
* `src/app/api/districts/[id]/metrics/environmental/route.ts` — the `GET`
  route handler returning fixed environmental metrics.

JS numbers are modelled as `ℚ` (the source only compares and combines the
literals 0.4, 0.2, 0.7, 0.3, 0.8 with agent scalars); wall-clock timestamps
(`Date.now()`) are omitted from telemetry payloads; external collaborators
(analytics sink, metrics service, event subscribers, embedding provider,
vector store) are modelled as explicit traces and function parameters.
-/

namespace Neurova

/-- `Task`: the shape assigned to `currentTask` in `assignTask`
(`{type, description, priority}`); `priority` is one of the string literals
"high" | "medium" | "low" produced in `handleCitizenNeed`. -/
structure Task where
  type : String
  description : String
  priority : String
deriving DecidableEq, Repr

/-- The `performance` record read by `selectBestAgent` and
`handleCitizenNeed`: `responseTime`, `resolutionRate`, `efficiency`,
`citizenSatisfaction`. -/
structure AgentPerformance where
  responseTime : ℚ
  resolutionRate : ℚ
  efficiency : ℚ
  citizenSatisfaction : ℚ
deriving DecidableEq, Repr

/-- The `schedule` record: only `availability` is read by the service. -/
structure AgentSchedule where
  availability : Bool
deriving DecidableEq, Repr

/-- `DepartmentAgent`: the fields of the registry entries that the service
reads or writes (`id`, `schedule.availability`, `performance.*`,
`currentTask`), plus `name` and `role` standing for the remaining
assignment-irrelevant attributes, so that frame properties are non-trivial. -/
structure DepartmentAgent where
  id : String
  name : String
  role : String
  schedule : AgentSchedule
  performance : AgentPerformance
  currentTask : Option Task
deriving DecidableEq, Repr

/-- `CitizenNeed`: `{type, description, urgency}`. -/
structure CitizenNeed where
  type : String
  description : String
  urgency : ℚ
deriving DecidableEq, Repr

/-- Telemetry events forwarded to `analyticsService.trackEvent`, one
constructor per call site, carrying the payload fields of that call site
(minus the `Date.now()` timestamps). `agent_registered` appears twice in the
source with different payloads: once in the `agentAssigned` listener and once
in `registerAgent`. -/
inductive TelemetryEvent where
  | agent_registered (agentId : String) (departmentId : String)
  | no_available_agents (needType : String) (urgency : ℚ)
  | agent_selected (agentId : String) (needType : String) (urgency : ℚ) (score : ℚ)
  | task_assigned (agentId : String) (taskType : String) (priority : String)
  | agent_registered_enroll (agentId : String) (role : String) (department : String)
deriving DecidableEq, Repr

/-- The `taskAssigned` event emitted to subscribers: `{agentId, task}`. -/
structure Notification where
  agentId : String
  task : Task
deriving DecidableEq, Repr

/-- The `social` partial record pushed to `metricsService.updateMetrics`
by `handleCitizenNeed`. -/
structure SocialMetricsUpdate where
  healthcareAccessScore : ℚ
  educationQualityIndex : ℚ
  communityWellbeing : ℚ
deriving DecidableEq, Repr

/-- The registry `this.agents : Map<string, DepartmentAgent>`, modelled as the
list of its values in iteration (insertion) order; every `set` in the source
uses the stored agent's own `id` as the key. -/
abbrev Registry := List DepartmentAgent

/-- `Map.set(agent.id, agent)`: replace in place when the key is present
(JS `Map` keeps the original position), append otherwise. -/
def registrySet (agents : Registry) (agent : DepartmentAgent) : Registry :=
  if agents.any (fun b => b.id == agent.id) then
    agents.map (fun b => if b.id == agent.id then agent else b)
  else
    agents ++ [agent]

/-- The `agentsHealthUpdated` listener body in `setupEventListeners`:
`agents.forEach(a => { if (this.agents.has(a.id)) this.agents.set(a.id, a) })`. -/
def applyHealthUpdate (registry : Registry) (agents : List DepartmentAgent) : Registry :=
  agents.foldl
    (fun acc agent =>
      if acc.any (fun b => b.id == agent.id) then registrySet acc agent else acc)
    registry

/-- The filter predicate in `handleCitizenNeed`:
`agent.schedule.availability && !agent.currentTask`. -/
def availableFilter (agent : DepartmentAgent) : Bool :=
  agent.schedule.availability && agent.currentTask.isNone

/-- The weighted score computed inside the `reduce` of `selectBestAgent`:
`responseTime * 0.4 + resolutionRate * 0.4 + efficiency * 0.2`. -/
def weightedScore (agent : DepartmentAgent) : ℚ :=
  agent.performance.responseTime * 0.4 +
    agent.performance.resolutionRate * 0.4 +
    agent.performance.efficiency * 0.2

/-- One step of the `reduce` in `selectBestAgent`:
`score > bestScore ? current : best` (on a tie the earlier `best` is kept). -/
def reduceStep (best current : DepartmentAgent) : DepartmentAgent :=
  if weightedScore current > weightedScore best then current else best

/-- `agents.reduce(...)` on the non-empty list `first :: rest`: JS `reduce`
without an initial value seeds the accumulator with the first element. -/
def selectBest (first : DepartmentAgent) (rest : List DepartmentAgent) : DepartmentAgent :=
  rest.foldl reduceStep first

/-- The priority ternary in `handleCitizenNeed`:
`need.urgency > 0.7 ? "high" : need.urgency > 0.3 ? "medium" : "low"`. -/
def taskPriority (urgency : ℚ) : String :=
  if urgency > 0.7 then "high" else if urgency > 0.3 then "medium" else "low"

/-- The task literal built in `handleCitizenNeed`:
`{type: "citizen_request", description: need.description, priority: ...}`. -/
def citizenTask (need : CitizenNeed) : Task :=
  { type := "citizen_request"
    description := need.description
    priority := taskPriority need.urgency }

/-- `assignTask(agentId, task)`: look the agent up by id (return silently when
absent), set its `currentTask`, re-store it, emit the `task_assigned`
telemetry event and the `taskAssigned` notification. Returns the new registry
together with the telemetry and notifications it produced. -/
def assignTask (agents : Registry) (agentId : String) (task : Task) :
    Registry × List TelemetryEvent × List Notification :=
  match agents.find? (fun b => b.id == agentId) with
  | none => (agents, [], [])
  | some agent =>
    let agent' := { agent with currentTask := some task }
    (registrySet agents agent',
      [.task_assigned agentId task.type task.priority],
      [{ agentId := agentId, task := task }])

/-- The full effect of one `handleCitizenNeed(need)` call: the registry after
the call, the telemetry events tracked, the notifications emitted, and the
metrics updates pushed, in program order. -/
structure HandleResult where
  agents : Registry
  telemetry : List TelemetryEvent
  notifications : List Notification
  metricsUpdates : List SocialMetricsUpdate
deriving DecidableEq, Repr

/-- `handleCitizenNeed(need)`: filter the registry values for available,
task-free agents; if none, track `no_available_agents` and return; otherwise
select the best agent (which tracks `agent_selected` with
`score: selectedAgent.performance.efficiency`), assign it a
`citizen_request` task with the urgency-derived priority, then push the
derived `social` metrics update. -/
def handleCitizenNeed (agents : Registry) (need : CitizenNeed) : HandleResult :=
  let availableAgents := agents.filter availableFilter
  match availableAgents with
  | [] =>
    { agents := agents
      telemetry := [.no_available_agents need.type need.urgency]
      notifications := []
      metricsUpdates := [] }
  | first :: rest =>
    let agent := selectBest first rest
    let selectedEvent : TelemetryEvent :=
      .agent_selected agent.id need.type need.urgency agent.performance.efficiency
    let task : Task := citizenTask need
    let assigned := assignTask agents agent.id task
    { agents := assigned.1
      telemetry := selectedEvent :: assigned.2.1
      notifications := assigned.2.2
      metricsUpdates :=
        [{ healthcareAccessScore := agent.performance.efficiency
           educationQualityIndex := 0.8
           communityWellbeing := agent.performance.citizenSatisfaction }] }

/-- `Agent` (enrollment input type): the fields read by `registerAgent`.
`traits` is carried as an opaque association list; the source serializes it
with `JSON.stringify` into the metadata, which the model represents by
carrying the value itself. `department` is optional (`undefined` ⇒ the
`|| "general"` default). -/
structure Agent where
  id : String
  name : String
  role : String
  personality : String
  interests : List String
  traits : List (String × ℚ)
  department : Option String
deriving DecidableEq, Repr

/-- The metadata bag upserted into the vector store by `registerAgent`. -/
structure VectorMetadata where
  type : String
  agentId : String
  role : String
  name : String
  personality : String
  interests : String
  traits : List (String × ℚ)
  department : String
deriving DecidableEq, Repr

/-- The record passed to `vectorStore.upsert`: `{id, values, metadata}`. -/
structure VectorRecord where
  id : String
  values : List ℚ
  metadata : VectorMetadata
deriving DecidableEq, Repr

/-- The observable outcome of one `registerAgent` call: every
`vectorStore.upsert` call made, every telemetry event tracked, and the error
re-thrown to the caller (`none` on success). -/
structure RegisterTrace where
  upsertCalls : List VectorRecord
  telemetry : List TelemetryEvent
  thrown : Option String
deriving DecidableEq, Repr

/-- The embedding text built in `registerAgent`:
`` `${agent.role} ${agent.personality} ${agent.interests.join(" ")}` ``. -/
def embeddingText (agent : Agent) : String :=
  agent.role ++ " " ++ agent.personality ++ " " ++ String.intercalate " " agent.interests

/-- `registerAgent(agent)`: request an embedding for the agent text, upsert
the vector record, then track `agent_registered`; the `try/catch` logs and
re-throws any failure. The external collaborators are parameters:
`createEmbedding` is the embedding provider, `upsertOutcome` decides whether
the vector-store call succeeds. -/
def registerAgent (createEmbedding : String → Except String (List ℚ))
    (upsertOutcome : VectorRecord → Except String Unit) (agent : Agent) : RegisterTrace :=
  match createEmbedding (embeddingText agent) with
  | .error e => { upsertCalls := [], telemetry := [], thrown := some e }
  | .ok embedding =>
    let record : VectorRecord :=
      { id := "agent-" ++ agent.id
        values := embedding
        metadata :=
          { type := "department_agent"
            agentId := agent.id
            role := agent.role
            name := agent.name
            personality := agent.personality
            interests := String.intercalate "," agent.interests
            traits := agent.traits
            department := agent.department.getD "general" } }
    match upsertOutcome record with
    | .error e => { upsertCalls := [record], telemetry := [], thrown := some e }
    | .ok _ =>
      { upsertCalls := [record]
        telemetry := [.agent_registered_enroll agent.id agent.role (agent.department.getD "general")]
        thrown := none }

/-- Response of the environmental-metrics route: either the 200 JSON record
built in the `try` block or the fixed 500 error body from the `catch`. -/
inductive EnvResponse where
  | ok (airQuality noiseLevel crowdingLevel greenSpaceUsage : Int)
  | serverError (error : String)
deriving DecidableEq, Repr

/-- HTTP status of an `EnvResponse`: `NextResponse.json(data)` defaults to
200; the catch branch sets `{status: 500}`. -/
def envStatus : EnvResponse → Nat
  | .ok _ _ _ _ => 200
  | .serverError _ => 500

/-- The route handler `GET(request, {params})` of
`src/app/api/districts/[id]/metrics/environmental/route.ts`. Its `try` body
is a literal record, so it can only fail if the surrounding response
construction throws; that environment failure is the `fault` parameter, which
selects the `catch` branch. The district id path parameter is bound but never
read. -/
def environmentalGET (fault : Bool) (_id : String) : EnvResponse :=
  if fault then
    .serverError "Failed to fetch environmental metrics"
  else
    .ok 250 60 68 78

/-! ### Concrete sample data for witnesses and counterexamples -/

/-- An available, task-free agent. -/
def idleAgent : DepartmentAgent :=
  { id := "agent-1"
    name := "Ada"
    role := "inspector"
    schedule := { availability := true }
    performance :=
      { responseTime := 0.5, resolutionRate := 0.5, efficiency := 0.9, citizenSatisfaction := 0.6 }
    currentTask := none }

/-- A second available agent with lower scores everywhere. -/
def weakAgent : DepartmentAgent :=
  { id := "agent-2"
    name := "Bo"
    role := "clerk"
    schedule := { availability := true }
    performance :=
      { responseTime := 0.1, resolutionRate := 0.1, efficiency := 0.1, citizenSatisfaction := 0.1 }
    currentTask := none }

/-- An agent whose schedule marks it unavailable. -/
def busyAgent : DepartmentAgent :=
  { id := "agent-3"
    name := "Cy"
    role := "engineer"
    schedule := { availability := false }
    performance :=
      { responseTime := 0.9, resolutionRate := 0.9, efficiency := 0.9, citizenSatisfaction := 0.9 }
    currentTask := none }

/-- An agent whose efficiency (1) differs from its weighted selection score
(0·0.4 + 0·0.4 + 1·0.2 = 0.2). -/
def skewAgent : DepartmentAgent :=
  { id := "agent-4"
    name := "Di"
    role := "analyst"
    schedule := { availability := true }
    performance :=
      { responseTime := 0, resolutionRate := 0, efficiency := 1, citizenSatisfaction := 0.5 }
    currentTask := none }

/-- A citizen need with mid-range urgency. -/
def sampleNeed : CitizenNeed :=
  { type := "water", description := "leak on main street", urgency := 0.5 }

/-- The same need with a different free-text description only. -/
def sampleNeed2 : CitizenNeed :=
  { type := "water", description := "burst pipe", urgency := 0.5 }

/-- An enrollment input. -/
def sampleEnrollee : Agent :=
  { id := "agent-9"
    name := "Lin"
    role := "planner"
    personality := "curious"
    interests := ["parks", "transit"]
    traits := [("openness", 0.9)]
    department := none }

/-! ### Helper lemmas about the reduction in `selectBestAgent` -/

/-- The accumulator's score never decreases along the `reduce`. -/
theorem weightedScore_le_foldl (l : List DepartmentAgent) :
    ∀ a : DepartmentAgent, weightedScore a ≤ weightedScore (List.foldl reduceStep a l) := by
  induction l with
  | nil => intro a; exact le_refl _
  | cons c l ih =>
    intro a
    rw [List.foldl_cons]
    refine le_trans ?_ (ih (reduceStep a c))
    unfold reduceStep
    split
    · exact le_of_lt (by assumption)
    · exact le_refl _

/-- The `reduce` of `selectBestAgent` returns the first element attaining the
maximal weighted score: everything strictly before it scores strictly lower,
everything after it scores no higher. -/
theorem foldl_reduceStep_first_max (l : List DepartmentAgent) :
    ∀ a : DepartmentAgent,
      ∃ pre post,
        a :: l = pre ++ List.foldl reduceStep a l :: post ∧
        (∀ b ∈ pre, weightedScore b < weightedScore (List.foldl reduceStep a l)) ∧
        (∀ b ∈ post, weightedScore b ≤ weightedScore (List.foldl reduceStep a l)) := by
  induction l with
  | nil =>
    intro a
    exact ⟨[], [], rfl, by simp, by simp⟩
  | cons c l ih =>
    intro a
    rw [List.foldl_cons]
    by_cases hc : weightedScore c > weightedScore a
    · have hstep : reduceStep a c = c := by unfold reduceStep; rw [if_pos hc]
      rw [hstep]
      obtain ⟨pre, post, hdec, hpre, hpost⟩ := ih c
      refine ⟨a :: pre, post, ?_, ?_, hpost⟩
      · rw [List.cons_append, ← hdec]
      · intro b hb
        rcases List.mem_cons.mp hb with rfl | hbp
        · exact lt_of_lt_of_le hc (weightedScore_le_foldl l c)
        · exact hpre b hbp
    · have hstep : reduceStep a c = a := by unfold reduceStep; rw [if_neg hc]
      rw [hstep]
      have hle : weightedScore c ≤ weightedScore a := le_of_not_lt hc
      obtain ⟨pre, post, hdec, hpre, hpost⟩ := ih a
      cases pre with
      | nil =>
        simp only [List.nil_append] at hdec
        have ha : a = List.foldl reduceStep a l := (List.cons.injEq _ _ _ _).mp hdec |>.1
        have hlpost : l = post := (List.cons.injEq _ _ _ _).mp hdec |>.2
        refine ⟨[], c :: l, ?_, by simp, ?_⟩
        · rw [List.nil_append, ← ha]
        · intro b hb
          rcases List.mem_cons.mp hb with rfl | hbl
          · exact le_trans hle (le_of_eq (congrArg weightedScore ha))
          · exact hpost b (hlpost ▸ hbl)
      | cons p pre' =>
        have hap : a = p := (List.cons.injEq _ _ _ _).mp hdec |>.1
        have hl : l = pre' ++ List.foldl reduceStep a l :: post :=
          (List.cons.injEq _ _ _ _).mp hdec |>.2
        have halt : weightedScore a < weightedScore (List.foldl reduceStep a l) := by
          have hp := hpre p (List.mem_cons_self p pre')
          rw [← hap] at hp
          exact hp
        refine ⟨a :: c :: pre', post, ?_, ?_, hpost⟩
        · conv_lhs => rw [hl]
          simp
        · intro b hb
          rcases List.mem_cons.mp hb with rfl | hb'
          · exact halt
          rcases List.mem_cons.mp hb' with rfl | hb''
          · exact lt_of_le_of_lt hle halt
          · exact hpre b (List.mem_cons_of_mem p hb'')

/-- `selectBest` restated through `foldl_reduceStep_first_max`. -/
theorem selectBest_first_max (first : DepartmentAgent) (rest : List DepartmentAgent) :
    ∃ pre post,
      first :: rest = pre ++ selectBest first rest :: post ∧
      (∀ b ∈ pre, weightedScore b < weightedScore (selectBest first rest)) ∧
      (∀ b ∈ post, weightedScore b ≤ weightedScore (selectBest first rest)) :=
  foldl_reduceStep_first_max rest first

/-- The selected agent is one of the candidates. -/
theorem selectBest_mem (first : DepartmentAgent) (rest : List DepartmentAgent) :
    selectBest first rest ∈ first :: rest := by
  obtain ⟨pre, post, hdec, -, -⟩ := selectBest_first_max first rest
  rw [hdec]
  exact List.mem_append_right pre (List.mem_cons_self _ _)

/-! ### Helper lemmas about `handleCitizenNeed` and the registry -/

/-- Unfolding of `handleCitizenNeed` when the availability filter is
non-empty. -/
theorem handleCitizenNeed_cons (agents : Registry) (need : CitizenNeed)
    (first : DepartmentAgent) (rest : List DepartmentAgent)
    (h : agents.filter availableFilter = first :: rest) :
    handleCitizenNeed agents need =
      { agents := (assignTask agents (selectBest first rest).id (citizenTask need)).1
        telemetry :=
          TelemetryEvent.agent_selected (selectBest first rest).id need.type need.urgency
              (selectBest first rest).performance.efficiency ::
            (assignTask agents (selectBest first rest).id (citizenTask need)).2.1
        notifications := (assignTask agents (selectBest first rest).id (citizenTask need)).2.2
        metricsUpdates :=
          [{ healthcareAccessScore := (selectBest first rest).performance.efficiency
             educationQualityIndex := 0.8
             communityWellbeing := (selectBest first rest).performance.citizenSatisfaction }] } := by
  unfold handleCitizenNeed
  rw [h]

/-- Unfolding of `handleCitizenNeed` when the availability filter is empty. -/
theorem handleCitizenNeed_nil (agents : Registry) (need : CitizenNeed)
    (h : agents.filter availableFilter = []) :
    handleCitizenNeed agents need =
      { agents := agents
        telemetry := [.no_available_agents need.type need.urgency]
        notifications := []
        metricsUpdates := [] } := by
  unfold handleCitizenNeed
  rw [h]

/-- Unfolding of `assignTask` when the lookup succeeds. -/
theorem assignTask_eq_of_find (agents : Registry) (agentId : String) (task : Task)
    (agent : DepartmentAgent) (h : agents.find? (fun b => b.id == agentId) = some agent) :
    assignTask agents agentId task =
      (registrySet agents { agent with currentTask := some task },
        [.task_assigned agentId task.type task.priority],
        [{ agentId := agentId, task := task }]) := by
  unfold assignTask
  rw [h]

/-- `Map.get` by id succeeds for any id present among the registry values, and
returns an entry with that id. -/
theorem exists_find?_id (agents : Registry) (a : DepartmentAgent) (ha : a ∈ agents) :
    ∃ b, agents.find? (fun c => c.id == a.id) = some b ∧ b.id = a.id := by
  have h1 : (agents.find? (fun c => c.id == a.id)).isSome := by
    rw [List.find?_isSome]
    exact ⟨a, ha, by simp⟩
  obtain ⟨b, hb⟩ := Option.isSome_iff_exists.mp h1
  refine ⟨b, hb, ?_⟩
  simpa using List.find?_some hb

/-- The selected agent is a registry member whenever the filter is
non-empty. -/
theorem selectBest_mem_registry (agents : Registry) (first : DepartmentAgent)
    (rest : List DepartmentAgent) (h : agents.filter availableFilter = first :: rest) :
    selectBest first rest ∈ agents := by
  have hmem : selectBest first rest ∈ agents.filter availableFilter := by
    rw [h]; exact selectBest_mem first rest
  exact List.mem_of_mem_filter hmem

/-! ### Claim theorems -/

/-- **C1.** For every non-empty list of eligible agents, `handleCitizenNeed`
selects the agent maximizing `0.4·responseTime + 0.4·resolutionRate +
0.2·efficiency`: the candidate list decomposes around the selected agent with
every earlier candidate scoring strictly lower (so the earlier agent wins
ties under the strict greater-than reduction) and every later candidate
scoring no higher; the `agent_selected` telemetry names exactly that agent;
and with exactly one eligible agent that agent is selected regardless of
score. -/
theorem handleCitizenNeed_selects_first_max (agents : Registry) (need : CitizenNeed)
    (first : DepartmentAgent) (rest : List DepartmentAgent)
    (h : agents.filter availableFilter = first :: rest) :
    ∃ pre post,
      first :: rest = pre ++ selectBest first rest :: post ∧
      (∀ b ∈ pre, weightedScore b < weightedScore (selectBest first rest)) ∧
      (∀ b ∈ post, weightedScore b ≤ weightedScore (selectBest first rest)) ∧
      TelemetryEvent.agent_selected (selectBest first rest).id need.type need.urgency
          (selectBest first rest).performance.efficiency ∈
        (handleCitizenNeed agents need).telemetry ∧
      (rest = [] → selectBest first rest = first) := by
  obtain ⟨pre, post, hdec, hpre, hpost⟩ := selectBest_first_max first rest
  refine ⟨pre, post, hdec, hpre, hpost, ?_, ?_⟩
  · rw [handleCitizenNeed_cons agents need first rest h]
    exact List.mem_cons_self _ _
  · intro hrest
    rw [hrest]
    rfl

/-- Witness for C1 at a two-agent registry: `idleAgent` outscores
`weakAgent`. -/
theorem handleCitizenNeed_selects_first_max_witness :
    ∃ pre post,
      idleAgent :: [weakAgent] = pre ++ selectBest idleAgent [weakAgent] :: post ∧
      (∀ b ∈ pre, weightedScore b < weightedScore (selectBest idleAgent [weakAgent])) ∧
      (∀ b ∈ post, weightedScore b ≤ weightedScore (selectBest idleAgent [weakAgent])) ∧
      TelemetryEvent.agent_selected (selectBest idleAgent [weakAgent]).id sampleNeed.type
          sampleNeed.urgency (selectBest idleAgent [weakAgent]).performance.efficiency ∈
        (handleCitizenNeed [idleAgent, weakAgent] sampleNeed).telemetry ∧
      ([weakAgent] = ([] : List DepartmentAgent) → selectBest idleAgent [weakAgent] = idleAgent) :=
  handleCitizenNeed_selects_first_max [idleAgent, weakAgent] sampleNeed idleAgent [weakAgent] rfl

/-- **C3.** When no registry agent is both available and task-free,
`handleCitizenNeed` leaves the registry unchanged, creates no task, emits no
notification, pushes no metrics update, and tracks exactly the
`no_available_agents` telemetry event. -/
theorem handleCitizenNeed_no_available_agents (agents : Registry) (need : CitizenNeed)
    (h : ∀ a ∈ agents, ¬(a.schedule.availability = true ∧ a.currentTask = none)) :
    handleCitizenNeed agents need =
      { agents := agents
        telemetry := [.no_available_agents need.type need.urgency]
        notifications := []
        metricsUpdates := [] } := by
  apply handleCitizenNeed_nil
  rw [List.filter_eq_nil_iff]
  intro a ha hav
  apply h a ha
  simpa [availableFilter, Option.isNone_iff_eq_none] using hav

/-- Witness for C3: a registry holding only an unavailable agent. -/
theorem handleCitizenNeed_no_available_agents_witness :
    handleCitizenNeed [busyAgent] sampleNeed =
      { agents := [busyAgent]
        telemetry := [.no_available_agents "water" 0.5]
        notifications := []
        metricsUpdates := [] } :=
  handleCitizenNeed_no_available_agents [busyAgent] sampleNeed
    (by
      intro a ha
      simp only [List.mem_singleton] at ha
      subst ha
      simp [busyAgent])

/-- **C4.** If the embedding call fails, `registerAgent` performs no
vector-store upsert, tracks no telemetry, and surfaces exactly the embedding
failure to the caller: the whole operation aborts with no partial write. -/
theorem registerAgent_embedding_failure_atomic
    (createEmbedding : String → Except String (List ℚ))
    (upsertOutcome : VectorRecord → Except String Unit) (agent : Agent) (e : String)
    (h : createEmbedding (embeddingText agent) = .error e) :
    registerAgent createEmbedding upsertOutcome agent =
      { upsertCalls := [], telemetry := [], thrown := some e } := by
  unfold registerAgent
  rw [h]

/-- Witness for C4: a provider that always fails. -/
theorem registerAgent_embedding_failure_atomic_witness :
    registerAgent (fun _ => .error "embedding unavailable") (fun _ => .ok ()) sampleEnrollee =
      { upsertCalls := [], telemetry := [], thrown := some "embedding unavailable" } :=
  registerAgent_embedding_failure_atomic (fun _ => .error "embedding unavailable")
    (fun _ => .ok ()) sampleEnrollee "embedding unavailable" rfl

/-- **C5.** `applyHealthUpdate` never changes the registry's identifier list:
it replaces state only for agents already present and never introduces a new
identifier. -/
theorem applyHealthUpdate_preserves_ids (registry : Registry) (agents : List DepartmentAgent) :
    (applyHealthUpdate registry agents).map (fun a => a.id) = registry.map (fun a => a.id) := by
  induction agents generalizing registry with
  | nil => rfl
  | cons a rest ih =>
    have hcons : applyHealthUpdate registry (a :: rest) =
        applyHealthUpdate
          (if registry.any (fun b => b.id == a.id) then registrySet registry a else registry)
          rest := rfl
    rw [hcons, ih]
    split
    · next hany =>
      unfold registrySet
      rw [if_pos hany, List.map_map]
      apply List.map_congr_left
      intro b _
      by_cases hid : b.id = a.id
      · simp [Function.comp, hid]
      · simp [Function.comp, hid]
    · rfl

/-- **C6.** For every district id and every environment behavior, the
environmental metrics route returns the fixed 200 record
`{airQuality: 250, noiseLevel: 60, crowdingLevel: 68, greenSpaceUsage: 78}`,
its only failure mode is a 500 with the fixed error body, and the path
parameter is never used. -/
theorem environmentalGET_fixed_response (fault : Bool) (id : String) :
    environmentalGET false id = .ok 250 60 68 78 ∧
    envStatus (environmentalGET false id) = 200 ∧
    environmentalGET true id = .serverError "Failed to fetch environmental metrics" ∧
    envStatus (environmentalGET true id) = 500 ∧
    ∀ id' : String, environmentalGET fault id = environmentalGET fault id' := by
  refine ⟨rfl, rfl, rfl, rfl, fun _ => ?_⟩
  cases fault <;> rfl

/-- **C7.** On every successful assignment, the pushed metrics update sets
`healthcareAccessScore` to the selected agent's efficiency,
`communityWellbeing` to the selected agent's citizen satisfaction, and
`educationQualityIndex` to the constant 0.8, independent of the need. -/
theorem handleCitizenNeed_metrics_update (agents : Registry) (need : CitizenNeed)
    (first : DepartmentAgent) (rest : List DepartmentAgent)
    (h : agents.filter availableFilter = first :: rest) :
    (handleCitizenNeed agents need).metricsUpdates =
      [{ healthcareAccessScore := (selectBest first rest).performance.efficiency
         educationQualityIndex := 0.8
         communityWellbeing := (selectBest first rest).performance.citizenSatisfaction }] := by
  rw [handleCitizenNeed_cons agents need first rest h]

/-- Witness for C7 at a singleton registry. -/
theorem handleCitizenNeed_metrics_update_witness :
    (handleCitizenNeed [idleAgent] sampleNeed).metricsUpdates =
      [{ healthcareAccessScore := (selectBest idleAgent []).performance.efficiency
         educationQualityIndex := 0.8
         communityWellbeing := (selectBest idleAgent []).performance.citizenSatisfaction }] :=
  handleCitizenNeed_metrics_update [idleAgent] sampleNeed idleAgent [] rfl

/-- **C2.** Task priority is `"high"` iff urgency > 0.7, `"medium"` iff
0.3 < urgency ≤ 0.7, `"low"` iff urgency ≤ 0.3 (strict thresholds); every task
created by `handleCitizenNeed` carries exactly this priority; and the spec's
example points evaluate as stated. -/
theorem handleCitizenNeed_priority_mapping :
    (∀ u : ℚ,
      (taskPriority u = "high" ↔ u > 0.7) ∧
      (taskPriority u = "medium" ↔ 0.3 < u ∧ u ≤ 0.7) ∧
      (taskPriority u = "low" ↔ u ≤ 0.3)) ∧
    (∀ (agents : Registry) (need : CitizenNeed) (n : Notification),
      n ∈ (handleCitizenNeed agents need).notifications →
        n.task.priority = taskPriority need.urgency) ∧
    taskPriority 0.8 = "high" ∧ taskPriority 0.7 = "medium" ∧ taskPriority 0.5 = "medium" ∧
    taskPriority 0.3 = "low" ∧ taskPriority 0.1 = "low" := by
  refine ⟨?_, ?_, by norm_num [taskPriority], by norm_num [taskPriority],
    by norm_num [taskPriority], by norm_num [taskPriority], by norm_num [taskPriority]⟩
  · intro u
    unfold taskPriority
    split_ifs with h7 h3
    · exact ⟨iff_of_true rfl h7,
        iff_of_false (by decide) (fun hm => absurd h7 (not_lt.mpr hm.2)),
        iff_of_false (by decide)
          (fun hl => absurd h7 (not_lt.mpr (le_trans hl (by norm_num))))⟩
    · exact ⟨iff_of_false (by decide) h7,
        iff_of_true rfl ⟨h3, le_of_not_lt h7⟩,
        iff_of_false (by decide) (fun hl => absurd h3 (not_lt.mpr hl))⟩
    · exact ⟨iff_of_false (by decide) h7,
        iff_of_false (by decide) (fun hm => absurd hm.1 h3),
        iff_of_true rfl (le_of_not_lt h3)⟩
  · intro agents need n hn
    cases hfil : agents.filter availableFilter with
    | nil =>
      rw [handleCitizenNeed_nil agents need hfil] at hn
      simp at hn
    | cons first rest =>
      rw [handleCitizenNeed_cons agents need first rest hfil] at hn
      simp only [] at hn
      cases hfind : agents.find? (fun b => b.id == (selectBest first rest).id) with
      | none =>
        unfold assignTask at hn
        rw [hfind] at hn
        simp at hn
      | some b =>
        rw [assignTask_eq_of_find agents _ _ b hfind] at hn
        simp only [List.mem_singleton] at hn
        rw [hn]
        rfl

/-- Witness for C2: the single task created at a singleton registry carries
the urgency-derived priority (here `"medium"` for urgency 0.5). -/
theorem handleCitizenNeed_priority_mapping_witness :
    (handleCitizenNeed [idleAgent] sampleNeed).notifications =
      [{ agentId := "agent-1", task := citizenTask sampleNeed }] ∧
    ({ agentId := "agent-1", task := citizenTask sampleNeed } : Notification).task.priority =
      taskPriority sampleNeed.urgency := by
  have hEq : (handleCitizenNeed [idleAgent] sampleNeed).notifications =
      [{ agentId := "agent-1", task := citizenTask sampleNeed }] := by
    norm_num [handleCitizenNeed, availableFilter, selectBest, assignTask, registrySet,
      idleAgent, sampleNeed]
  exact ⟨hEq, handleCitizenNeed_priority_mapping.2.1 [idleAgent] sampleNeed _
    (by rw [hEq]; exact List.mem_singleton.mpr rfl)⟩

/-- **C8 counterexample.** The `task_assigned` telemetry event does not carry
the created task: two needs differing only in their free-text description
produce different tasks (visible in the notifications) but identical
telemetry, so no telemetry payload field carries the task. -/
theorem task_assigned_telemetry_omits_task :
    (handleCitizenNeed [idleAgent] sampleNeed).notifications ≠
      (handleCitizenNeed [idleAgent] sampleNeed2).notifications ∧
    (handleCitizenNeed [idleAgent] sampleNeed).telemetry =
      (handleCitizenNeed [idleAgent] sampleNeed2).telemetry := by
  constructor
  · norm_num [handleCitizenNeed, availableFilter, selectBest, assignTask, registrySet,
      citizenTask, taskPriority, idleAgent, sampleNeed, sampleNeed2]
    decide
  · norm_num [handleCitizenNeed, availableFilter, selectBest, assignTask, registrySet,
      citizenTask, taskPriority, idleAgent, sampleNeed, sampleNeed2]

/-- **C8 (amended).** On every successful assignment both events fire and
both carry the selected agent's identifier: the `task_assigned` telemetry
event carries the created task's type and priority, and the `taskAssigned`
notification carries the full created task. -/
theorem handleCitizenNeed_emits_assignment_events (agents : Registry) (need : CitizenNeed)
    (first : DepartmentAgent) (rest : List DepartmentAgent)
    (h : agents.filter availableFilter = first :: rest) :
    TelemetryEvent.task_assigned (selectBest first rest).id "citizen_request"
        (taskPriority need.urgency) ∈ (handleCitizenNeed agents need).telemetry ∧
    TelemetryEvent.agent_selected (selectBest first rest).id need.type need.urgency
        (selectBest first rest).performance.efficiency ∈
      (handleCitizenNeed agents need).telemetry ∧
    (handleCitizenNeed agents need).notifications =
      [{ agentId := (selectBest first rest).id, task := citizenTask need }] := by
  obtain ⟨b, hfind, -⟩ :=
    exists_find?_id agents (selectBest first rest) (selectBest_mem_registry agents first rest h)
  rw [handleCitizenNeed_cons agents need first rest h,
    assignTask_eq_of_find agents _ _ b hfind]
  refine ⟨?_, ?_, rfl⟩
  · exact List.mem_cons_of_mem _ (List.mem_singleton.mpr rfl)
  · exact List.mem_cons_self _ _

/-- Witness for the amended C8 at a singleton registry. -/
theorem handleCitizenNeed_emits_assignment_events_witness :
    TelemetryEvent.task_assigned (selectBest idleAgent []).id "citizen_request"
        (taskPriority sampleNeed.urgency) ∈ (handleCitizenNeed [idleAgent] sampleNeed).telemetry ∧
    TelemetryEvent.agent_selected (selectBest idleAgent []).id sampleNeed.type sampleNeed.urgency
        (selectBest idleAgent []).performance.efficiency ∈
      (handleCitizenNeed [idleAgent] sampleNeed).telemetry ∧
    (handleCitizenNeed [idleAgent] sampleNeed).notifications =
      [{ agentId := (selectBest idleAgent []).id, task := citizenTask sampleNeed }] :=
  handleCitizenNeed_emits_assignment_events [idleAgent] sampleNeed idleAgent [] rfl

/-- **C9.** With pairwise-distinct registry identifiers, `handleCitizenNeed`
on a non-empty eligible set rewrites the registry pointwise: the selected
agent's entry changes only in its `currentTask` field (set to the created
task) and every other entry is untouched. -/
theorem handleCitizenNeed_frame (agents : Registry) (need : CitizenNeed)
    (first : DepartmentAgent) (rest : List DepartmentAgent)
    (h : agents.filter availableFilter = first :: rest)
    (hnd : (agents.map (fun a => a.id)).Nodup) :
    (handleCitizenNeed agents need).agents =
      agents.map (fun b =>
        if b.id == (selectBest first rest).id then
          { b with currentTask := some (citizenTask need) }
        else b) := by
  have hmem := selectBest_mem_registry agents first rest h
  obtain ⟨b, hfind, hbid⟩ := exists_find?_id agents (selectBest first rest) hmem
  have hbsel : b = selectBest first rest :=
    List.inj_on_of_nodup_map hnd (List.mem_of_find?_eq_some hfind) hmem hbid
  rw [hbsel] at hfind
  rw [handleCitizenNeed_cons agents need first rest h,
    assignTask_eq_of_find agents _ _ _ hfind]
  show registrySet agents _ = _
  unfold registrySet
  have hany : agents.any
      (fun c => c.id ==
        ({ selectBest first rest with currentTask := some (citizenTask need) } : DepartmentAgent).id) =
      true := by
    rw [List.any_eq_true]
    exact ⟨selectBest first rest, hmem, by simp⟩
  rw [if_pos hany]
  apply List.map_congr_left
  intro c hc
  by_cases hcid : c.id = (selectBest first rest).id
  · have hceq : c = selectBest first rest := List.inj_on_of_nodup_map hnd hc hmem hcid
    rw [hceq]
  · have hfalse : (c.id == (selectBest first rest).id) = false := beq_eq_false_iff_ne.mpr hcid
    simp [hfalse]

/-- Witness for C9: only `idleAgent`'s entry gains the task; `busyAgent` is
untouched. -/
theorem handleCitizenNeed_frame_witness :
    (handleCitizenNeed [busyAgent, idleAgent] sampleNeed).agents =
      [busyAgent, idleAgent].map (fun b =>
        if b.id == (selectBest idleAgent []).id then
          { b with currentTask := some (citizenTask sampleNeed) }
        else b) :=
  handleCitizenNeed_frame [busyAgent, idleAgent] sampleNeed idleAgent [] rfl (by decide)

/-- **C10.** The `agent_selected` telemetry event's `score` field carries the
selected agent's `efficiency` scalar for every selection; it is not the
weighted selection score, which differs from `efficiency` on `skewAgent`
(weighted score 0.2 versus emitted score 1). -/
theorem agent_selected_score_is_efficiency :
    (∀ (agents : Registry) (need : CitizenNeed) (first : DepartmentAgent)
        (rest : List DepartmentAgent),
      agents.filter availableFilter = first :: rest →
        (handleCitizenNeed agents need).telemetry.head? =
          some (.agent_selected (selectBest first rest).id need.type need.urgency
            (selectBest first rest).performance.efficiency)) ∧
    weightedScore skewAgent ≠ skewAgent.performance.efficiency ∧
    (handleCitizenNeed [skewAgent] sampleNeed).telemetry.head? =
      some (.agent_selected "agent-4" "water" 0.5 1) := by
  refine ⟨?_, ?_, ?_⟩
  · intro agents need first rest h
    rw [handleCitizenNeed_cons agents need first rest h]
    rfl
  · norm_num [weightedScore, skewAgent]
  · norm_num [handleCitizenNeed, availableFilter, selectBest, assignTask, registrySet,
      skewAgent, sampleNeed]

/-- Witness for C10 at a singleton registry. -/
theorem agent_selected_score_is_efficiency_witness :
    (handleCitizenNeed [skewAgent] sampleNeed).telemetry.head? =
      some (.agent_selected (selectBest skewAgent []).id sampleNeed.type sampleNeed.urgency
        (selectBest skewAgent []).performance.efficiency) :=
  agent_selected_score_is_efficiency.1 [skewAgent] sampleNeed skewAgent [] rfl

end Neurova
